import Mathlib

/-!
Shallow embedding of the schemathesis execution engine
(`src/schemathesis/models.py`, `src/schemathesis/_hypothesis.py`,
`src/enhancedSchemathesis/runner/__init__.py`,
`src/enhancedSchemathesis/runner/impl/core.py`) and proofs about the
spec's claims over it.

Python values that the engine inspects dynamically are modelled by the
`PyVal` inductive; Python `dict`s whose keys are known to be strings are
modelled as association lists (`JsonObj`), with assignment preserving
insertion order as CPython does.  Exceptions are modelled by `ExcKind`
and fallible code returns `Except`/pairs with an `Option ExcKind`.
-/

namespace Schemathesis

/-- Model of a dynamically-typed Python value, as far as the engine inspects it. -/
inductive PyVal where
  | none
  | bool (b : Bool)
  | int (n : Int)
  | str (s : String)
  | bytes (n : Nat)
  | list (xs : List PyVal)
  | dict (entries : List (PyVal × PyVal))

/-- A Python dict with string keys (JSON object / parameter set), as an
insertion-ordered association list. -/
abbrev JsonObj := List (String × PyVal)

/-- Lookup in a string-keyed dict (first binding wins, as in a dict). -/
def dictGet (j : JsonObj) (k : String) : Option PyVal :=
  match j with
  | [] => Option.none
  | (k', v) :: rest => if k' = k then some v else dictGet rest k

/-- Membership test for a string-keyed dict (Python `k in d`). -/
def dictMem (j : JsonObj) (k : String) : Bool :=
  (dictGet j k).isSome

/-- Python dict assignment `d[k] = v`: replaces in place when the key exists,
appends at the end otherwise (CPython insertion-order semantics). -/
def dictSet (j : JsonObj) (k : String) (v : PyVal) : JsonObj :=
  match j with
  | [] => [(k, v)]
  | (k', v') :: rest => if k' = k then (k, v) :: rest else (k', v') :: dictSet rest k v

/-- Exceptions that the modelled code raises or catches.  `assertionError`
carries the messages of the bundled assertion failures. -/
inductive ExcKind where
  | assertionError (msgs : List String)
  | multipleFailures
  | flaky (msg : String)
  | unsatisfiable (msg : String)
  | keyboardInterrupt
  | invalidSchema (msg : String)
  | valueError (msg : String)
  | typeError
  | missingDependency
  | jsonDecodeError
  | indexError
  | other (msg : String)
deriving DecidableEq

/-- `schemathesis.models.Status`: status of an action or multiple actions. -/
inductive Status where
  | success
  | failure
  | error
deriving DecidableEq

/-- `schemathesis.models.Endpoint`: container used for test case generation.
`validate_schema` stands for `endpoint.schema.validate_schema` of the owning
schema object (the schema class itself is external to the engine core). -/
structure Endpoint where
  path : String
  method : String
  base_url : Option String := Option.none
  path_parameters : Option PyVal := Option.none
  headers : Option PyVal := Option.none
  cookies : Option PyVal := Option.none
  query : Option PyVal := Option.none
  body : Option PyVal := Option.none
  form_data : Option PyVal := Option.none
  validate_schema : Bool := true

/-- `schemathesis.models.Case`: a single test case's parameters.  Generated
parameter sets are schema-constrained JSON objects, hence `JsonObj` fields. -/
structure Case where
  endpoint : Endpoint
  path_parameters : Option JsonObj := Option.none
  headers : Option JsonObj := Option.none
  cookies : Option JsonObj := Option.none
  query : Option JsonObj := Option.none
  body : Option JsonObj := Option.none
  form_data : Option JsonObj := Option.none

/-- `schemathesis.models.Check`: a single check run result. -/
structure Check where
  name : String
  value : Status
  example_case : Option Case := Option.none  -- `example` in the source; renamed (Lean keyword)
  message : Option String := Option.none

/-- Raw transport response as the engine observes it (`requests.Response`).
`json` is the result of `json.loads(text)`: `Option.none` models a body that
is not valid JSON (the parse raises). -/
structure HttpResponse where
  status_code : Nat
  text : String := ""
  json : Option JsonObj := Option.none
  url : String := ""
  elapsed_seconds : String := "0"
  headers : List (String × String) := []

/-- `schemathesis.models.Request`: request data extracted from `Case`. -/
structure Request where
  path : String
  method : String
  base_url : Option String
  headers : Option JsonObj
  cookies : Option JsonObj
  query : Option JsonObj
  body : Option JsonObj
  form_data : Option JsonObj

/-- `Request.from_case`: the derived `path`/`method`/`base_url` properties of
`Case` delegate to the owning endpoint. -/
def Request.from_case (c : Case) : Request :=
  { path := c.endpoint.path
    method := c.endpoint.method
    base_url := c.endpoint.base_url
    headers := c.headers
    cookies := c.cookies
    query := c.query
    body := c.body
    form_data := c.form_data }

/-- `schemathesis.models.Response`: unified stored response data.  The real
code stores the body base64-encoded; the byte-level encoding is kept as the
raw text here since no control flow inspects it. -/
structure Response where
  url : String
  status_code : Nat
  content : Option String
  headers : List (String × String)
  elapsed : String

/-- `Response.from_requests`. -/
def Response.from_requests (r : HttpResponse) : Response :=
  { url := r.url
    status_code := r.status_code
    content := some r.text
    headers := r.headers
    elapsed := r.elapsed_seconds }

/-- `schemathesis.models.Interaction`: a single interaction with the target. -/
structure Interaction where
  request : Request
  response : Response

/-- `Interaction.from_requests`. -/
def Interaction.from_requests (c : Case) (r : HttpResponse) : Interaction :=
  { request := Request.from_case c, response := Response.from_requests r }

/-- Value recorded by `add_response_error_result`: either the decoded JSON
body or a raw string (`"Success"` or the undecodable body text). -/
inductive RespRecord where
  | json (o : JsonObj)
  | text (s : String)

/-- `schemathesis.models.TestResult`, extended with the three per-response
bookkeeping lists whose `add_status_code` / `add_response_error_result` /
`add_response_elapsed_time` methods are called from
`enhancedSchemathesis/runner/impl/core.py` (the enhanced variant of the
models module is not under src/; these fields are modelled from those call
sites as plain appends). -/
structure TestResult where
  endpoint : Endpoint
  checks : List Check := []
  errors : List (ExcKind × Option Case) := []
  interactions : List Interaction := []
  logs : List String := []
  is_errored : Bool := false
  seed : Option Nat := Option.none
  status_codes : List Nat := []
  response_error_results : List RespRecord := []
  response_elapsed_times : List String := []

/-- `TestResult.mark_errored`. -/
def TestResult.mark_errored (r : TestResult) : TestResult :=
  { r with is_errored := true }

/-- `TestResult.has_errors`: `bool(self.errors)`. -/
def TestResult.has_errors (r : TestResult) : Bool :=
  !r.errors.isEmpty

/-- `TestResult.has_failures`: any check has failure status. -/
def TestResult.has_failures (r : TestResult) : Bool :=
  r.checks.any (fun c => c.value = Status.failure)

/-- `TestResult.add_success`. -/
def TestResult.add_success (r : TestResult) (name : String) (example_case : Case) : TestResult :=
  { r with checks := r.checks ++ [{ name := name, value := Status.success, example_case := some example_case }] }

/-- `TestResult.add_failure`. -/
def TestResult.add_failure (r : TestResult) (name : String) (example_case : Case) (message : String) :
    TestResult :=
  { r with checks := r.checks ++
      [{ name := name, value := Status.failure, example_case := some example_case, message := some message }] }

/-- `TestResult.add_error`. -/
def TestResult.add_error (r : TestResult) (exception : ExcKind)
    (example_case : Option Case := Option.none) : TestResult :=
  { r with errors := r.errors ++ [(exception, example_case)] }

/-- `TestResult.store_requests_response`: appends one interaction snapshot. -/
def TestResult.store_requests_response (r : TestResult) (c : Case) (response : HttpResponse) :
    TestResult :=
  { r with interactions := r.interactions ++ [Interaction.from_requests c response] }

/-- `schemathesis.models.TestResultSet`. -/
structure TestResultSet where
  results : List TestResult := []

/-- `TestResultSet._count`: number of results satisfying a predicate. -/
def TestResultSet.countP (s : TestResultSet) (predicate : TestResult → Bool) : Nat :=
  (s.results.filter predicate).length

/-- `TestResultSet.passed_count`. -/
def TestResultSet.passed_count (s : TestResultSet) : Nat :=
  s.countP (fun result => !result.has_errors && !result.has_failures)

/-- `TestResultSet.failed_count`. -/
def TestResultSet.failed_count (s : TestResultSet) : Nat :=
  s.countP (fun result => result.has_failures && !result.is_errored)

/-- `TestResultSet.errored_count`. -/
def TestResultSet.errored_count (s : TestResultSet) : Nat :=
  s.countP (fun result => result.has_errors || result.is_errored)

/-- `TestResultSet.append`. -/
def TestResultSet.append (s : TestResultSet) (item : TestResult) : TestResultSet :=
  { s with results := s.results ++ [item] }

/-- A fixed endpoint used by concrete evaluations. -/
def epA : Endpoint := { path := "/a", method := "GET" }

/-- Helper for the count decomposition: filters over a cons cell. -/
theorem countP_decompose (rs : List TestResult) :
    (rs.filter (fun r => !r.has_errors && !r.has_failures)).length
      + (rs.filter (fun r => r.has_failures && !r.is_errored)).length
      + (rs.filter (fun r => r.has_errors || r.is_errored)).length
    = rs.length
      + (rs.filter (fun r => r.has_errors && r.has_failures && !r.is_errored)).length
      + (rs.filter (fun r => r.is_errored && !r.has_errors && !r.has_failures)).length := by
  induction rs with
  | nil => simp
  | cons r rest ih =>
      simp only [List.filter_cons, List.length_cons]
      cases h1 : r.has_errors <;> cases h2 : r.has_failures <;> cases h3 : r.is_errored <;>
        simp [h1, h2, h3] <;> omega

/-- A result with one failure `Check` and one recorded error (errored flag
unset): it is counted by both `failed_count` and `errored_count`. -/
def c1_result : TestResult :=
  { endpoint := epA
    checks := [{ name := "status_code_conformance", value := Status.failure }]
    errors := [(ExcKind.other "boom", Option.none)] }

/-- The result set consisting of `c1_result` alone. -/
def c1_set : TestResultSet := { results := [c1_result] }

/-- C1 counterexample: for the set holding a single result that has both a
failure Check and a recorded error (errored flag unset), `failed_count` and
`errored_count` both count it, so `passed_count + failed_count +
errored_count = 2` while the total number of results is `1`: the three
counts are not mutually exclusive and do not sum to the total. -/
theorem C1_counts_not_partition :
    ¬ (c1_set.passed_count + c1_set.failed_count + c1_set.errored_count
        = c1_set.results.length) := by
  decide

/-- C1 (amended): `passed_count` counts results with no errors and no
failures (ignoring the errored flag), `failed_count` counts results with
failures and errored flag unset, `errored_count` counts results with errors
or the errored flag; the sum of the three counts equals the total number of
results PLUS the number of results having both failures and errors with the
errored flag unset (counted by both failed and errored) PLUS the number of
results with the errored flag set but no errors and no failures (counted by
both passed and errored).  The counts partition the results exactly when
those two overlap classes are empty. -/
theorem C1_counts_sum_decomposition (s : TestResultSet) :
    s.passed_count + s.failed_count + s.errored_count
      = s.results.length
        + s.countP (fun r => r.has_errors && r.has_failures && !r.is_errored)
        + s.countP (fun r => r.is_errored && !r.has_errors && !r.has_failures) := by
  obtain ⟨rs⟩ := s
  simpa only [TestResultSet.passed_count, TestResultSet.failed_count,
    TestResultSet.errored_count, TestResultSet.countP] using countP_decompose rs

/-- A result with zero recorded errors but the errored flag set. -/
def c4_result : TestResult := { endpoint := epA, is_errored := true }

/-- C4 counterexample: a `TestResult` with zero recorded errors and
`is_errored = true` has `has_errors = false`, contradicting the claim that
`has_errors` is true whenever the errored flag is set. -/
theorem C4_has_errors_ignores_errored_flag :
    c4_result.errors = [] ∧ c4_result.is_errored = true ∧ c4_result.has_errors = false :=
  ⟨rfl, rfl, rfl⟩

/-- C4 (amended): `has_failures` is true iff some Check in the result has
failure status, and `has_errors` is true iff some error was recorded; the
errored flag is not consulted by `has_errors` (it is consulted separately by
`errored_count`), so a result with zero recorded errors but
`is_errored = true` has `has_errors = false`. -/
theorem C4_has_flags_characterization (r : TestResult) :
    (r.has_failures = true ↔ ∃ c ∈ r.checks, c.value = Status.failure)
    ∧ (r.has_errors = true ↔ r.errors ≠ []) := by
  constructor
  · simp [TestResult.has_failures, List.any_eq_true]
  · simp [TestResult.has_errors, List.isEmpty_iff]

/-- Modelled from the spec: `utils.is_ascii_encodable` (the utils module is
not under src/).  The spec requires header names/values to be
"ASCII-encodable"; Python's `str.encode("ascii")` succeeds exactly when every
code point is at most 127. -/
def is_ascii_encodable (s : String) : Bool :=
  s.toList.all (fun c => c.val ≤ 127)

/-- Modelled from the spec: `utils.has_invalid_characters` (the utils module
is not under src/).  The spec requires header names/values to be "free of
protocol-invalid characters"; CR, LF and NUL are the characters that make a
header line invalid. -/
def has_invalid_characters (name value : String) : Bool :=
  (name ++ value).toList.any (fun c => c = '\r' || c = '\n' || c = Char.ofNat 0)

/-- `_hypothesis.is_valid_header`: accept only dicts whose entries are
non-empty, ASCII-encodable strings free of invalid characters. -/
def is_valid_header (headers : PyVal) : Bool :=
  match headers with
  | .dict entries =>
      entries.all (fun e =>
        match e with
        | (.str name, .str value) =>
            !name.isEmpty && !value.isEmpty &&
            is_ascii_encodable name && is_ascii_encodable value &&
            !has_invalid_characters name value
        | _ => false)
  | _ => false

/-- `_hypothesis.is_valid_cookie`: accept only dicts of ASCII-encodable
string pairs (no emptiness or invalid-character requirement). -/
def is_valid_cookie (cookies : PyVal) : Bool :=
  match cookies with
  | .dict entries =>
      entries.all (fun e =>
        match e with
        | (.str _, .str _) =>
            match e with
            | (.str name, .str value) => is_ascii_encodable name && is_ascii_encodable value
            | _ => false
        | _ => false)
  | _ => false

/-- `_hypothesis.is_surrogate`.  Lean strings cannot carry lone surrogate
code points, so on representable strings this is identically false; it is
kept as the literal translation of the source's regex range check. -/
def is_surrogate (item : PyVal) : Bool :=
  match item with
  | .str s => s.toList.any (fun c => 0xD800 ≤ c.val && c.val ≤ 0xDFFF)
  | _ => false

/-- `_hypothesis.is_valid_query`: no key or value may be a string holding a
lone UTF-16 surrogate. -/
def is_valid_query (query : PyVal) : Bool :=
  match query with
  | .dict entries => entries.all (fun e => !is_surrogate e.1 && !is_surrogate e.2)
  | _ => false

/-- `_hypothesis.is_valid_form_data`: a mapping of string keys to
primitive/byte values, or a sequence of (string, primitive/byte) pairs
(tuples are modelled as lists). -/
def is_valid_form_data (form_data : PyVal) : Bool :=
  match form_data with
  | .dict entries =>
      entries.all (fun e =>
        match e with
        | (.str _, .bytes _) => true
        | (.str _, .str _) => true
        | (.str _, .int _) => true
        | _ => false)
  | .list xs =>
      xs.all (fun item =>
        match item with
        | .list [.str _, .bytes _] => true
        | .list [.str _, .str _] => true
        | .list [.str _, .int _] => true
        | _ => false)
  | _ => false

/-- `_hypothesis.filter_path_parameters`: reject composite values and the
lone-dot value. -/
def filter_path_parameters (parameters : JsonObj) : Bool :=
  (parameters.all (fun kv =>
      match kv.2 with
      | .list _ => false
      | .dict _ => false
      | _ => true))
  && !(parameters.any (fun kv =>
      match kv.2 with
      | .str s => s = "."
      | _ => false))

/-- The acceptance filter attached to a parameter's generator in
`get_case_strategy` (`path_filter` additionally maps `quote_all` over the
accepted values). -/
inductive AppliedFilter where
  | path_filter
  | header_filter
  | query_filter
  | cookie_filter
  | form_data_filter
  | no_filter
deriving DecidableEq

/-- The `if/elif` chain of `get_case_strategy` selecting the acceptance
filter for one parameter location. -/
def strategy_filter_for (parameter : String) : AppliedFilter :=
  if parameter = "path_parameters" then .path_filter
  else if parameter = "headers" ∨ parameter = "cookies" then .header_filter
  else if parameter = "query" then .query_filter
  else if parameter = "cookies" then .cookie_filter
  else if parameter = "form_data" then .form_data_filter
  else .no_filter

/-- `_hypothesis.PARAMETERS` (a frozenset in the source; its arbitrary
iteration order is fixed here). -/
def PARAMETERS : List String :=
  ["path_parameters", "headers", "cookies", "query", "body", "form_data"]

/-- The per-location parameter schema of an endpoint, by location name. -/
def Endpoint.param_schema (e : Endpoint) (parameter : String) : Option PyVal :=
  if parameter = "path_parameters" then e.path_parameters
  else if parameter = "headers" then e.headers
  else if parameter = "cookies" then e.cookies
  else if parameter = "query" then e.query
  else if parameter = "body" then e.body
  else if parameter = "form_data" then e.form_data
  else Option.none

/-- The outcome of strategy construction: which parameters receive a
schema-driven generator (with their acceptance filter) and which are bound
statically to `None` on every generated case. -/
structure StrategyPlan where
  strategized : List (String × AppliedFilter)
  static_none : List String
deriving DecidableEq

/-- `get_case_strategy` followed by `_get_case_strategy`: build a filtered
generator per present parameter location, bind absent locations statically
to `None`, then apply the GET-body rule: with schema validation on and
method `"GET"`, a present body schema raises `InvalidSchema`, otherwise the
body is forced to the static `None` and its strategy is dropped. -/
def get_case_strategy (e : Endpoint) : Except ExcKind StrategyPlan :=
  let strategized := PARAMETERS.filterMap (fun p =>
    if (e.param_schema p).isSome then some (p, strategy_filter_for p) else Option.none)
  let static_none := PARAMETERS.filter (fun p => (e.param_schema p).isNone)
  if e.validate_schema && e.method == "GET" then
    if e.body.isSome then
      Except.error (ExcKind.invalidSchema "Body parameters are defined for GET request.")
    else
      Except.ok
        { strategized := strategized.filter (fun q => q.1 ≠ "body")
          static_none := if static_none.contains "body" then static_none
                         else static_none ++ ["body"] }
  else
    Except.ok { strategized := strategized, static_none := static_none }

/-- Whether an `Except` value is a success. -/
def exceptOk {ε α : Type} : Except ε α → Bool
  | .ok _ => true
  | .error _ => false

/-- C8: with schema validation enabled and method `"GET"`, strategy
construction fails with `InvalidSchema` exactly when the endpoint declares a
body schema; when it succeeds under that rule the body is statically `None`
(no body strategy remains); for any other method or with validation disabled
no error is raised. -/
theorem C8_get_body_rule (e : Endpoint) :
    (exceptOk (get_case_strategy e) = false
      ↔ e.validate_schema = true ∧ e.method = "GET" ∧ e.body.isSome = true)
    ∧ (∀ plan, get_case_strategy e = Except.ok plan →
        e.validate_schema = true → e.method = "GET" →
        "body" ∈ plan.static_none ∧ ∀ q ∈ plan.strategized, q.1 ≠ "body") := by
  constructor
  · unfold get_case_strategy
    by_cases h1 : e.validate_schema <;> by_cases h2 : e.method = "GET" <;>
      cases h3 : e.body <;> simp_all [exceptOk]
  · intro plan hplan h1 h2
    unfold get_case_strategy at hplan
    rw [h1, h2] at hplan
    cases h3 : e.body with
    | none =>
        rw [h3] at hplan
        have hmem : "body" ∈ PARAMETERS.filter (fun p => (e.param_schema p).isNone) :=
          List.mem_filter.mpr ⟨by simp [PARAMETERS], by simp [Endpoint.param_schema, h3]⟩
        have hcont : (PARAMETERS.filter (fun p => (e.param_schema p).isNone)).contains "body"
            = true := List.elem_iff.mpr hmem
        simp only [Bool.true_and, beq_self_eq_true, if_true, Option.isSome_none,
          Bool.false_eq_true, if_false, hcont, Except.ok.injEq] at hplan
        subst hplan
        refine ⟨hmem, ?_⟩
        intro q hq
        simp only [List.mem_filter, decide_eq_true_eq] at hq
        exact hq.2
    | some b =>
        rw [h3] at hplan
        simp at hplan

/-- C8 witness: a GET endpoint with validation on and no body schema builds
a plan whose body is statically `None` and has no body strategy. -/
theorem C8_get_body_rule_witness :
    "body" ∈ ({ strategized := [], static_none := PARAMETERS } : StrategyPlan).static_none
      ∧ ∀ q ∈ ({ strategized := [], static_none := PARAMETERS } : StrategyPlan).strategized,
          q.1 ≠ "body" :=
  (C8_get_body_rule epA).2 { strategized := [], static_none := PARAMETERS } rfl rfl rfl

/-- Every value accepted by the header filter is accepted by the cookie
filter: the header filter checks strictly more. -/
theorem header_filter_stronger (h : PyVal) (hv : is_valid_header h = true) :
    is_valid_cookie h = true := by
  cases h with
  | dict entries =>
      simp only [is_valid_header, List.all_eq_true] at hv
      simp only [is_valid_cookie, List.all_eq_true]
      intro e he
      have h' := hv e he
      obtain ⟨n, v⟩ := e
      cases n <;> cases v <;> simp_all
  | none => simp [is_valid_header] at hv
  | bool b => simp [is_valid_header] at hv
  | int n => simp [is_valid_header] at hv
  | str s => simp [is_valid_header] at hv
  | bytes n => simp [is_valid_header] at hv
  | list xs => simp [is_valid_header] at hv

/-- C10: the `"cookies"` parameter receives the `is_valid_header` acceptance
filter (the `("headers", "cookies")` membership branch), the later
`is_valid_cookie` branch is unreachable for every parameter name, every
value accepted by `is_valid_header` is accepted by `is_valid_cookie`, and
the header condition is strictly stronger (some value passes the cookie
filter but not the header filter). -/
theorem C10_cookie_branch_unreachable :
    strategy_filter_for "cookies" = AppliedFilter.header_filter
    ∧ (∀ p : String, strategy_filter_for p ≠ AppliedFilter.cookie_filter)
    ∧ (∀ h : PyVal, is_valid_header h = true → is_valid_cookie h = true)
    ∧ (∃ h : PyVal, is_valid_cookie h = true ∧ is_valid_header h = false) := by
  refine ⟨rfl, ?_, header_filter_stronger, ?_⟩
  · intro p
    unfold strategy_filter_for
    by_cases h1 : p = "path_parameters" <;> by_cases h2 : p = "headers" ∨ p = "cookies" <;>
      by_cases h3 : p = "query" <;> by_cases h4 : p = "cookies" <;>
        by_cases h5 : p = "form_data" <;> simp_all
  · exact ⟨PyVal.dict [(PyVal.str "a", PyVal.str "")], by decide, by decide⟩

/-- C10 witness: a concrete ASCII header dict passes `is_valid_header`, and
by the theorem it then passes `is_valid_cookie` as well. -/
theorem C10_cookie_branch_unreachable_witness :
    is_valid_header (PyVal.dict [(PyVal.str "A", PyVal.str "b")]) = true
      ∧ is_valid_cookie (PyVal.dict [(PyVal.str "A", PyVal.str "b")]) = true :=
  ⟨by decide,
   C10_cookie_branch_unreachable.2.2.1 (PyVal.dict [(PyVal.str "A", PyVal.str "b")]) (by decide)⟩

/-- Python `str.lower()` (ASCII case folding as used on paths/methods). -/
def py_lower (s : String) : String := String.mk (s.data.map Char.toLower)

/-- Helper for `py_split_colon`: split a character list at `':'`. -/
def splitColonAux : List Char → List Char → List String
  | [], acc => [String.mk acc.reverse]
  | c :: rest, acc =>
      if c = ':' then String.mk acc.reverse :: splitColonAux rest []
      else splitColonAux rest (c :: acc)

/-- Python `s.split(":")`. -/
def py_split_colon (s : String) : List String := splitColonAux s.data []

/-- Python `sub in s` on strings (substring containment). -/
def str_in (sub s : String) : Bool :=
  (List.range (s.data.length + 1)).any (fun i => sub.data.isPrefixOf (s.data.drop i))

/-- One entry of the ordered-dependency map: the declared `required` rules
(location kind, then field name to `"producerMethod:producerPath:producerField"`)
and the declared `store` field names. -/
structure DepRule where
  required : List (String × List (String × String)) := []
  store : List String := []

/-- The ordered-dependency map `execute_in_order`, keyed by `"method:path"`. -/
abbrev DepMap := List (String × DepRule)

/-- Lookup of a key in the dependency map (Python `key in d` / `d[key]`). -/
def depGet (m : DepMap) (k : String) : Option DepRule :=
  match m with
  | [] => Option.none
  | (k', v) :: rest => if k' = k then some v else depGet rest k

/-- Python truthiness of `execute_in_order` (`if execute_in_order:`):
`None` and the empty dict are falsy. -/
def truthyDepMap : Option DepMap → Bool
  | Option.none => false
  | some m => !m.isEmpty

/-- Python truthiness of an optional parameter dict (`if case.path_parameters:`). -/
def truthyObj : Option JsonObj → Bool
  | Option.none => false
  | some j => !j.isEmpty

/-- Modelled from the spec: the class of the `store_response` object (the
DependencyStore) is not under src/ (only its callers in core.py are).  Per
the spec, `store(key, field, value)` unconditionally overwrites and
`get(key, field)` fails with a MissingDependency condition when the key was
never written. -/
structure DependencyStore where
  entries : List ((String × String) × PyVal) := []

/-- DependencyStore write: unconditional overwrite of `(key, field)`. -/
def DependencyStore.store_result (s : DependencyStore) (key field : String) (value : PyVal) :
    DependencyStore :=
  { entries := ((key, field), value) ::
      s.entries.filter (fun e => !(e.1.1 == key && e.1.2 == field)) }

/-- DependencyStore read: fails with MissingDependency when absent. -/
def DependencyStore.get_store_result (s : DependencyStore) (key field : String) :
    Except ExcKind PyVal :=
  match s.entries.find? (fun e => e.1.1 == key && e.1.2 == field) with
  | some e => Except.ok e.2
  | Option.none => Except.error ExcKind.missingDependency

/-- Python item assignment `field[k] = v` on an optional dict: assigning into
`None` raises TypeError. -/
def setField (f : Option JsonObj) (k : String) (v : PyVal) : Except ExcKind (Option JsonObj) :=
  match f with
  | Option.none => Except.error ExcKind.typeError
  | some j => Except.ok (some (dictSet j k v))

/-- One assignment of `check_if_change_required`'s declarative loop:
`p = depends.split(":")` (fewer than three parts raises IndexError at
`p[2]`), read `get_store_result(p[0]+":"+p[1], p[2])`, then overwrite the
named field in the given location of the case. -/
def applyDepAssign (store_response : DependencyStore) (c : Case) (typ param depends : String) :
    Except ExcKind Case :=
  if typ = "path_parameters" ∨ typ = "query" ∨ typ = "body" then
    match py_split_colon depends with
    | p0 :: p1 :: p2 :: _ =>
        match store_response.get_store_result (p0 ++ ":" ++ p1) p2 with
        | Except.error e => Except.error e
        | Except.ok v =>
            if typ = "path_parameters" then
              (setField c.path_parameters param v).map (fun x => { c with path_parameters := x })
            else if typ = "query" then
              (setField c.query param v).map (fun x => { c with query := x })
            else
              (setField c.body param v).map (fun x => { c with body := x })
    | _ => Except.error ExcKind.indexError
  else
    Except.ok c

/-- Sequentially apply the assignments of one location kind.  The `except`
clause sits outside the whole loop and the case is mutated in place, so on
the first raised exception the case keeps the mutations made so far. -/
def applyDepList (store_response : DependencyStore) (typ : String) :
    Case → List (String × String) → Case × Option ExcKind
  | c, [] => (c, Option.none)
  | c, (param, depends) :: rest =>
      match applyDepAssign store_response c typ param depends with
      | Except.ok c' => applyDepList store_response typ c' rest
      | Except.error e => (c, some e)

/-- Sequentially apply all location kinds of a `required` rule. -/
def applyRequired (store_response : DependencyStore) :
    Case → List (String × List (String × String)) → Case × Option ExcKind
  | c, [] => (c, Option.none)
  | c, (typ, assigns) :: rest =>
      match applyDepList store_response typ c assigns with
      | (c', Option.none) => applyRequired store_response c' rest
      | (c', some e) => (c', some e)

/-- `check_if_change_required`: dependency resolution before dispatch.  The
declarative branch is wrapped in `try/except: pass` (never raises; on an
inner exception the case keeps the mutations made before it); the two
hard-coded `/notes` fallback branches are NOT wrapped, so their exceptions
propagate.  `timeStr` stands for `str(time.time())`. -/
def check_if_change_required (c : Case) (timeStr : String) (execute_in_order : Option DepMap)
    (store_response : DependencyStore) : Except ExcKind Case :=
  let path := py_lower c.endpoint.path
  let method := py_lower c.endpoint.method
  if truthyDepMap execute_in_order then
    match depGet (execute_in_order.getD []) (method ++ ":" ++ path) with
    | some rule =>
        if !rule.required.isEmpty then
          Except.ok (applyRequired store_response c rule.required).1
        else Except.ok c
    | Option.none => Except.ok c
  else if str_in "/notes" path && truthyObj c.path_parameters
      && dictMem (c.path_parameters.getD []) "note_id" then
    match store_response.get_store_result "post:/notes" "id" with
    | Except.ok v =>
        Except.ok { c with path_parameters := some (dictSet (c.path_parameters.getD []) "note_id" v) }
    | Except.error e => Except.error e
  else if path = "/notes" ∧ method = "post" then
    (setField c.body "ref" (PyVal.str (timeStr ++ "platform_testing"))).map
      (fun b => { c with body := b })
  else Except.ok c

/-- `check_if_storing_required`: response-value storing after the call.  The
declarative branch (guarded by a truthy `execute_in_order`, key membership,
a truthy `store` list and `status_code <= 204`) is wrapped in
`try/except: pass`, so a JSON decode failure stores nothing and raises
nothing; the hard-coded `POST /notes` fallback has no status-code guard and
no `try`, so it stores regardless of the status code and propagates a JSON
decode failure. -/
def check_if_storing_required (c : Case) (response : HttpResponse)
    (execute_in_order : Option DepMap) (store_response : DependencyStore) :
    DependencyStore × Option ExcKind :=
  let path := py_lower c.endpoint.path
  let method := py_lower c.endpoint.method
  if truthyDepMap execute_in_order then
    match depGet (execute_in_order.getD []) (method ++ ":" ++ path) with
    | some rule =>
        if rule.store.isEmpty = false ∧ response.status_code ≤ 204 then
          match response.json with
          | some j =>
              (rule.store.foldl (fun st f =>
                  st.store_result (method ++ ":" ++ path) f ((dictGet j f).getD PyVal.none))
                store_response,
               Option.none)
          | Option.none => (store_response, Option.none)
        else (store_response, Option.none)
    | Option.none => (store_response, Option.none)
  else if path = "/notes" ∧ method = "post" then
    match response.json with
    | some j =>
        (store_response.store_result (method ++ ":" ++ path) "id" ((dictGet j "id").getD PyVal.none),
         Option.none)
    | Option.none => (store_response, some ExcKind.jsonDecodeError)
  else (store_response, Option.none)

/-- `update_case_header`: for every case-level header name also present in
the session's headers, the session's value overwrites the case's value. -/
def update_case_header (c : Case) (session_headers : JsonObj) : Case × JsonObj :=
  match c.headers with
  | Option.none => (c, session_headers)
  | some hs =>
      ({ c with headers := some (hs.map (fun e =>
          match dictGet session_headers e.1 with
          | some sv => (e.1, sv)
          | Option.none => e)) },
       session_headers)

/-- `prepare_timeout`: milliseconds to seconds. -/
def prepare_timeout (timeout : Option Nat) : Option Rat :=
  timeout.map (fun t => (t : Rat) / 1000)

/-- One response assertion of the checks list: `Option.none` models a pass
and `some msg` a raised `AssertionError` with that message (the
assertion-catalogue contract: checks signal failure via assertion
conditions). -/
structure CheckFunction where
  name : String
  run : HttpResponse → Case → Option String

/-- Modelled from the spec: `exceptions.get_grouped_exception` is not under
src/; per the spec it bundles all individual assertion failures into one
grouped assertion-failure condition. -/
def get_grouped_exception (msgs : List String) : ExcKind :=
  ExcKind.assertionError msgs

/-- `TestResult.add_status_code` of the enhanced models module (not under
src/), modelled from its call site as an append. -/
def TestResult.add_status_code (r : TestResult) (code : Nat) : TestResult :=
  { r with status_codes := r.status_codes ++ [code] }

/-- `TestResult.add_response_error_result` of the enhanced models module
(not under src/), modelled from its call site as an append. -/
def TestResult.add_response_error_result (r : TestResult) (res : RespRecord) : TestResult :=
  { r with response_error_results := r.response_error_results ++ [res] }

/-- `TestResult.add_response_elapsed_time` of the enhanced models module
(not under src/), modelled from its call site as an append. -/
def TestResult.add_response_elapsed_time (r : TestResult) (t : String) : TestResult :=
  { r with response_elapsed_times := r.response_elapsed_times ++ [t] }

/-- The check loop of `run_checks`: every check runs (an assertion failure
is caught per check and collected), a `Check` record is appended per
outcome. -/
def run_checks_loop (c : Case) (response : HttpResponse) :
    TestResult → List String → List CheckFunction → TestResult × List String
  | r, errs, [] => (r, errs)
  | r, errs, check :: rest =>
      match check.run response c with
      | Option.none => run_checks_loop c response (r.add_success check.name c) errs rest
      | some msg => run_checks_loop c response (r.add_failure check.name c msg) (errs ++ [msg]) rest

/-- `run_checks`: run every check, record per-check outcomes, record the
status code, the response error result (`"Success"` for status <= 204, else
the decoded JSON body or the raw text), and the elapsed time; finally raise
the single grouped failure iff any check failed. -/
def run_checks (c : Case) (checks : List CheckFunction) (result : TestResult)
    (response : HttpResponse) : TestResult × Option ExcKind :=
  let out := run_checks_loop c response result [] checks
  let r4 := ((out.1.add_status_code response.status_code).add_response_error_result
    (if response.status_code > 204 then
       match response.json with
       | some j => RespRecord.json j
       | Option.none => RespRecord.text response.text
     else RespRecord.text "Success")).add_response_elapsed_time
      (response.elapsed_seconds ++ " sec")
  if out.2.isEmpty then (r4, Option.none) else (r4, some (get_grouped_exception out.2))

/-- The outcome of one `network_test` body: the (possibly updated) result,
the (possibly updated) dependency store, and the exception escaping to
`run_test`, if any. -/
structure NetOutcome where
  result : TestResult
  store : DependencyStore
  exc : Option ExcKind

/-- `network_test`: the single test body executed against the target.  The
transport call itself is abstracted as an oracle from the dispatched case to
its response. -/
def network_test (c : Case) (checks : List CheckFunction) (result : TestResult)
    (session_headers : JsonObj) (request_timeout : Option Nat) (timeStr : String)
    (execute_in_order : Option DepMap) (store_response : DependencyStore)
    (transport : Case → HttpResponse) : NetOutcome :=
  let c1 := (update_case_header c session_headers).1
  match check_if_change_required c1 timeStr execute_in_order store_response with
  | Except.error e => { result := result, store := store_response, exc := some e }
  | Except.ok c2 =>
      let _timeout := prepare_timeout request_timeout
      let response := transport c2
      match check_if_storing_required c2 response execute_in_order store_response with
      | (store1, some e) => { result := result, store := store1, exc := some e }
      | (store1, Option.none) =>
          let out := run_checks c2 checks result response
          { result := out.1, store := store1, exc := out.2 }

/-- The `except` clause dispatch of `run_test`: the status derived from the
exception (if any) escaping the test body.  `Option.none` stands for the
KeyboardInterrupt path, which yields `Interrupted` and returns without an
`AfterExecution` event. -/
def run_test_status : Except ExcKind Unit → Option Status
  | Except.ok _ => some Status.success
  | Except.error (ExcKind.assertionError _) => some Status.failure
  | Except.error ExcKind.multipleFailures => some Status.failure
  | Except.error (ExcKind.flaky _) => some Status.error
  | Except.error (ExcKind.unsatisfiable _) => some Status.error
  | Except.error ExcKind.keyboardInterrupt => Option.none
  | Except.error _ => some Status.error

/-- The lifecycle events of the run loop (payloads beyond the endpoint name
and status are not inspected by the control flow modelled here). -/
inductive Event where
  | initialized
  | beforeExecution (endpoint : String)
  | afterExecution (endpoint : String) (status : Status)
  | interrupted
  | internalError
  | finished
deriving DecidableEq

/-- The exit-first test of `BaseRunner.execute`'s loop:
`isinstance(event, AfterExecution) and event.status in (error, failure)`. -/
def exit_first_trigger (event : Event) : Bool :=
  match event with
  | Event.afterExecution _ s => s = Status.error ∨ s = Status.failure
  | _ => false

/-- `BaseRunner.execute`: yield `Initialized`, then forward the inner stream
but `break` (before yielding) at the first triggering event when
`exit_first` is set, then yield `Finished`. -/
def BaseRunner.execute (exit_first : Bool) (inner : List Event) : List Event :=
  Event.initialized ::
    inner.takeWhile (fun event => !(exit_first && exit_first_trigger event)) ++ [Event.finished]

/-- The event stream of one `run_test`: `BeforeExecution`, then either
`AfterExecution` with the derived status or `Interrupted` (KeyboardInterrupt
returns early). -/
def run_test_events (name : String) (outcome : Except ExcKind Unit) : List Event :=
  Event.beforeExecution name ::
    (match run_test_status outcome with
     | some s => [Event.afterExecution name s]
     | Option.none => [Event.interrupted])

/-- Modelled from the spec: the SingleThreadRunner's `_execute` is not under
src/ (only `BaseRunner.execute` and `run_test` are); per the spec it
iterates endpoints sequentially, one `run_test` event stream after another,
in schema-declared order. -/
def single_thread_execute (endpoints : List (String × Except ExcKind Unit)) : List Event :=
  endpoints.flatMap (fun ep => run_test_events ep.1 ep.2)

/-- The loaders the runner's `validate_loader` recognizes; `custom` stands
for any other callable. -/
inductive Loader where
  | from_uri
  | from_aiohttp
  | from_dict
  | from_file
  | from_path
  | from_wsgi
  | custom
deriving DecidableEq

/-- Whether the `schema_uri` argument is a dict or a string URI. -/
inductive SchemaUri where
  | dict
  | str
deriving DecidableEq

/-- `validate_loader`: sanity checking for input schema and loader; custom
loaders are not checked; a mismatch raises `ValueError`. -/
def validate_loader (loader : Loader) (schema_uri : SchemaUri) : Except ExcKind Unit :=
  match loader with
  | Loader.custom => Except.ok ()
  | _ =>
      match schema_uri with
      | SchemaUri.dict =>
          if loader = Loader.from_dict then Except.ok ()
          else Except.error
            (ExcKind.valueError "Dictionary as a schema is allowed only with from_dict loader")
      | SchemaUri.str =>
          if loader = Loader.from_dict then
            Except.error (ExcKind.valueError "Schema should be a dictionary for from_dict loader")
          else Except.ok ()

/-- `execute_from_schema`: the whole body (app import, schema load, runner
selection and the runner's stream) sits in one `try`; an exception becomes a
single run-level `InternalError` event.  Setup is abstracted as an `Except`
input: `.ok` carries the exit-first flag and the selected runner's inner
event stream, `.error` the exception raised during setup (the modelled
runner stream is a pure list and cannot itself raise). -/
def execute_from_schema (setup : Except ExcKind (Bool × List Event)) : List Event :=
  match setup with
  | Except.error _ => [Event.internalError]
  | Except.ok cfg => BaseRunner.execute cfg.1 cfg.2

/-- `prepare`: the orchestrator's public entry point.  It calls
`validate_loader` OUTSIDE any `try` before returning the event generator, so
a loader/schema mismatch is a raised `ValueError`, not an event. -/
def prepare (loader : Loader) (schema_uri : SchemaUri)
    (setup : Except ExcKind (Bool × List Event)) : Except ExcKind (List Event) :=
  match validate_loader loader schema_uri with
  | Except.error e => Except.error e
  | Except.ok _ => Except.ok (execute_from_schema setup)

/-- `takeWhile` of a list whose prefix satisfies the predicate, stopped by
the first element that falsifies it. -/
theorem takeWhile_prefix_stop {α : Type} (p : α → Bool) :
    ∀ (pre post : List α) (e : α),
      (∀ x ∈ pre, p x = true) → p e = false →
      (pre ++ e :: post).takeWhile p = pre := by
  intro pre
  induction pre with
  | nil =>
      intro post e _ hpe
      simp [List.takeWhile_cons, hpe]
  | cons a rest ih =>
      intro post e hpre hpe
      have ha : p a = true := hpre a (by simp)
      simp [List.takeWhile_cons, ha, ih post e (fun x hx => hpre x (by simp [hx])) hpe]

/-- The inner event stream of the exit-first scenario: endpoint A fails its
checks, endpoint B passes. -/
def c2_inner : List Event :=
  single_thread_execute
    [("A", Except.error (ExcKind.assertionError ["boom"])), ("B", Except.ok ())]

/-- C2 counterexample: with `exit_first = True` and endpoint order
[A(fails), B(ok)], the inner stream does contain `AfterExecution` for A with
failure status, but `BaseRunner.execute` breaks BEFORE yielding it, so the
emitted stream is `[Initialized, BeforeExecution A, Finished]`: the
triggering `AfterExecution` event is NOT in the event stream, contradicting
the claim. -/
theorem C2_after_execution_not_emitted :
    BaseRunner.execute true c2_inner
        = [Event.initialized, Event.beforeExecution "A", Event.finished]
    ∧ Event.afterExecution "A" Status.failure ∈ c2_inner
    ∧ Event.afterExecution "A" Status.failure ∉ BaseRunner.execute true c2_inner := by
  decide

/-- C2 (amended): with `exit_first = True`, at the first inner event whose
status is failure or error the run loop stops without yielding that
triggering `AfterExecution` event, skipping all remaining endpoints (no
further `BeforeExecution`), and the stream still ends with the final
`Finished` event: the emitted stream is `Initialized`, then the inner events
strictly before the trigger, then `Finished`. -/
theorem C2_exit_first_stops_before_yield (pre post : List Event) (e : Event)
    (hpre : ∀ x ∈ pre, exit_first_trigger x = false)
    (he : exit_first_trigger e = true) :
    BaseRunner.execute true (pre ++ e :: post)
      = Event.initialized :: (pre ++ [Event.finished]) := by
  unfold BaseRunner.execute
  have htw : (pre ++ e :: post).takeWhile (fun event => !(true && exit_first_trigger event))
      = pre := by
    apply takeWhile_prefix_stop
    · intro x hx
      simp [hpre x hx]
    · simp [he]
  rw [htw]
  rfl

/-- C2 witness: the amended statement at the concrete scenario
[A(fails), B(ok)] — the stream is Initialized, BeforeExecution A, Finished
(in particular no BeforeExecution for B and no AfterExecution for A). -/
theorem C2_exit_first_stops_before_yield_witness :
    BaseRunner.execute true
        ([Event.beforeExecution "A"] ++ Event.afterExecution "A" Status.failure
          :: [Event.beforeExecution "B", Event.afterExecution "B" Status.success])
      = Event.initialized :: ([Event.beforeExecution "A"] ++ [Event.finished]) :=
  C2_exit_first_stops_before_yield [Event.beforeExecution "A"]
    [Event.beforeExecution "B", Event.afterExecution "B" Status.success]
    (Event.afterExecution "A" Status.failure) (by decide) (by decide)

/-- C3 counterexample: calling `prepare` with the `from_dict` loader and a
non-dict schema raises `ValueError` from `validate_loader` (which runs
outside any `try`), so an exception escapes the orchestrator's public entry
point instead of being surfaced as an `InternalError` event. -/
theorem C3_validate_loader_escapes :
    prepare Loader.from_dict SchemaUri.str (Except.ok (false, []))
      = Except.error (ExcKind.valueError "Schema should be a dictionary for from_dict loader") :=
  rfl

/-- C3 (amended): once `validate_loader` accepts the loader/schema
combination, `prepare` returns the event stream without raising, and every
setup failure inside `execute_from_schema` (app import, schema load, runner
construction) is surfaced as a run-level `InternalError` event; but a
loader/schema mismatch raises `ValueError` from `prepare` itself, outside
the event stream. -/
theorem C3_events_only_after_validation (loader : Loader) (schema_uri : SchemaUri)
    (setup : Except ExcKind (Bool × List Event))
    (h : validate_loader loader schema_uri = Except.ok ()) :
    prepare loader schema_uri setup = Except.ok (execute_from_schema setup)
    ∧ (∀ e, setup = Except.error e → execute_from_schema setup = [Event.internalError]) := by
  constructor
  · unfold prepare
    rw [h]
  · intro e he
    rw [he]
    rfl

/-- C3 witness: with the `from_uri` loader and a string schema the
validation passes; a failing schema load yields the single-event
`InternalError` stream and no exception escapes `prepare`. -/
theorem C3_events_only_after_validation_witness :
    prepare Loader.from_uri SchemaUri.str (Except.error (ExcKind.other "load failed"))
        = Except.ok (execute_from_schema (Except.error (ExcKind.other "load failed")))
    ∧ (∀ e, (Except.error (ExcKind.other "load failed") : Except ExcKind (Bool × List Event))
          = Except.error e →
        execute_from_schema (Except.error (ExcKind.other "load failed"))
          = [Event.internalError]) :=
  C3_events_only_after_validation Loader.from_uri SchemaUri.str
    (Except.error (ExcKind.other "load failed")) rfl

/-- A truthy dependency map is a non-empty one. -/
theorem truthyDepMap_of_ne_nil (m : DepMap) (hm : m ≠ []) : truthyDepMap (some m) = true := by
  cases m with
  | nil => exact absurd rfl hm
  | cons a t => simp [truthyDepMap]

/-- The `POST /notes` case of the hard-coded fallback store path. -/
def c5_case : Case := { endpoint := { path := "/notes", method := "POST" } }

/-- A JSON response with status 500 and body `id = 5`. -/
def c5_json_response : HttpResponse :=
  { status_code := 500, text := "x", json := some [("id", PyVal.int 5)] }

/-- A non-JSON response with status 200. -/
def c5_raw_response : HttpResponse :=
  { status_code := 200, text := "oops", json := Option.none }

/-- C5 counterexample: on the hard-coded `POST /notes` fallback path (no
dependency map given) the store IS written for a response with status code
500 (greater than 204), and a non-JSON body raises a JSON decode error that
is NOT swallowed — both parts of the claim fail on this execution path. -/
theorem C5_fallback_path_unguarded :
    ((check_if_storing_required c5_case c5_json_response Option.none { entries := [] }).1.entries
        = [(("post:/notes", "id"), PyVal.int 5)])
    ∧ ((check_if_storing_required c5_case c5_raw_response Option.none { entries := [] }).2
        = some ExcKind.jsonDecodeError) :=
  ⟨rfl, rfl⟩

/-- C5 (amended): on the declarative dependency-map path (a truthy
`execute_in_order`), the store is only written after a response whose status
code is at most 204 and storage failures are swallowed: the call never
raises and a response with status code greater than 204 leaves the store
unchanged.  The hard-coded `POST /notes` fallback path (taken when no
dependency map is given) has neither guard: it writes regardless of the
status code and propagates a JSON decode failure. -/
theorem C5_declarative_store_guarded (c : Case) (response : HttpResponse) (m : DepMap)
    (store_response : DependencyStore) (hm : m ≠ []) :
    ((check_if_storing_required c response (some m) store_response).2 = Option.none)
    ∧ (204 < response.status_code →
        (check_if_storing_required c response (some m) store_response).1 = store_response) := by
  have htr := truthyDepMap_of_ne_nil m hm
  constructor
  · simp only [check_if_storing_required, Option.getD]
    rw [if_pos htr]
    cases hdep : depGet m (py_lower c.endpoint.method ++ ":" ++ py_lower c.endpoint.path) with
    | none => rfl
    | some rule =>
        dsimp only
        by_cases hcond : rule.store.isEmpty = false ∧ response.status_code ≤ 204
        · rw [if_pos hcond]
          cases response.json <;> rfl
        · rw [if_neg hcond]
  · intro hst
    simp only [check_if_storing_required, Option.getD]
    rw [if_pos htr]
    cases hdep : depGet m (py_lower c.endpoint.method ++ ":" ++ py_lower c.endpoint.path) with
    | none => rfl
    | some rule =>
        dsimp only
        rw [if_neg]
        rintro ⟨h1, h2⟩
        omega

/-- A dependency map declaring a store rule for `GET /x`. -/
def c5w_map : DepMap := [("get:/x", { required := [], store := ["id"] })]

/-- C5 witness: with a declarative map present, a status-500 response
neither raises nor writes the store. -/
theorem C5_declarative_store_guarded_witness :
    ((check_if_storing_required c5_case c5_json_response (some c5w_map)
        { entries := [] }).2 = Option.none)
    ∧ (204 < c5_json_response.status_code →
        (check_if_storing_required c5_case c5_json_response (some c5w_map)
            { entries := [] }).1 = { entries := [] }) :=
  C5_declarative_store_guarded c5_case c5_json_response c5w_map { entries := [] } (by simp [c5w_map])

/-- A `GET /notes/{note_id}` case with a generated `note_id`, hitting the
hard-coded fallback read path when no dependency map is given. -/
def c6_case : Case :=
  { endpoint := { path := "/notes/{note_id}", method := "GET" }
    path_parameters := some [("note_id", PyVal.str "w")] }

/-- C6 counterexample: with no dependency map, the hard-coded `/notes`
fallback reads `post:/notes . id` from an empty store with no `try` around
it: the MissingDependency failure propagates out of
`check_if_change_required` (and hence to the caller of the executor) instead
of being swallowed. -/
theorem C6_fallback_read_raises :
    check_if_change_required c6_case "1700.0" Option.none { entries := [] }
      = Except.error ExcKind.missingDependency :=
  rfl

/-- C6 (amended): when a (truthy) declarative dependency map is given,
dependency resolution before dispatch never raises: whatever the declared
rules and the store contents, `check_if_change_required` returns a case (a
failed producer read is swallowed by the `try/except: pass` around the
declarative branch, the failing rule's field keeping its originally
generated value).  The hard-coded `/notes` fallback path, taken when no map
is given, propagates a failed store read instead. -/
theorem C6_declarative_resolution_never_raises (c : Case) (timeStr : String) (m : DepMap)
    (store_response : DependencyStore) (hm : m ≠ []) :
    ∃ c', check_if_change_required c timeStr (some m) store_response = Except.ok c' := by
  have htr := truthyDepMap_of_ne_nil m hm
  simp only [check_if_change_required, Option.getD]
  rw [if_pos htr]
  cases hdep : depGet m (py_lower c.endpoint.method ++ ":" ++ py_lower c.endpoint.path) with
  | none => exact ⟨c, rfl⟩
  | some rule =>
      dsimp only
      by_cases hr : (!rule.required.isEmpty) = true
      · rw [if_pos hr]
        exact ⟨_, rfl⟩
      · rw [if_neg hr]
        exact ⟨c, rfl⟩

/-- A dependency map declaring a producer for the `note_id` path parameter
of `GET /notes/{note_id}`. -/
def c6w_map : DepMap :=
  [("get:/notes/{note_id}",
    { required := [("path_parameters", [("note_id", "post:/notes:id")])], store := [] })]

/-- C6 witness: the declared rule's producer key is absent from the (empty)
store, yet resolution returns a case instead of raising. -/
theorem C6_declarative_resolution_never_raises_witness :
    ∃ c', check_if_change_required c6_case "1700.0" (some c6w_map) { entries := [] }
        = Except.ok c' :=
  C6_declarative_resolution_never_raises c6_case "1700.0" c6w_map { entries := [] } (by simp [c6w_map])

/-- The `Check` record that `run_checks` appends for one check outcome. -/
def outcome_check (c : Case) (response : HttpResponse) (check : CheckFunction) : Check :=
  match check.run response c with
  | Option.none => { name := check.name, value := Status.success, example_case := some c }
  | some msg =>
      { name := check.name, value := Status.failure, example_case := some c,
        message := some msg }

/-- Characterization of the check loop: every check contributes exactly one
appended `Check`, the collected failure messages are exactly the failing
checks' messages in order, and the interactions list is untouched. -/
theorem run_checks_loop_spec (c : Case) (response : HttpResponse) (checks : List CheckFunction) :
    ∀ (r : TestResult) (errs : List String),
      ((run_checks_loop c response r errs checks).1.checks
          = r.checks ++ checks.map (outcome_check c response))
      ∧ ((run_checks_loop c response r errs checks).2
          = errs ++ checks.filterMap (fun check => check.run response c))
      ∧ ((run_checks_loop c response r errs checks).1.interactions = r.interactions) := by
  induction checks with
  | nil =>
      intro r errs
      simp [run_checks_loop]
  | cons check rest ih =>
      intro r errs
      cases hrun : check.run response c with
      | none =>
          obtain ⟨h1, h2, h3⟩ := ih (r.add_success check.name c) errs
          refine ⟨?_, ?_, ?_⟩
          · simp only [run_checks_loop, hrun]
            rw [h1]
            simp [TestResult.add_success, outcome_check, hrun, List.append_assoc]
          · simp only [run_checks_loop, hrun]
            rw [h2]
            simp [List.filterMap_cons, hrun]
          · simp only [run_checks_loop, hrun]
            exact h3
      | some msg =>
          obtain ⟨h1, h2, h3⟩ := ih (r.add_failure check.name c msg) (errs ++ [msg])
          refine ⟨?_, ?_, ?_⟩
          · simp only [run_checks_loop, hrun]
            rw [h1]
            simp [TestResult.add_failure, outcome_check, hrun, List.append_assoc]
          · simp only [run_checks_loop, hrun]
            rw [h2]
            simp [List.filterMap_cons, hrun, List.append_assoc]
          · simp only [run_checks_loop, hrun]
            exact h3

/-- The bookkeeping appends after the check loop leave the checks and the
interactions untouched, so `run_checks` preserves the loop's
characterization. -/
theorem run_checks_spec (c : Case) (checks : List CheckFunction) (result : TestResult)
    (response : HttpResponse) :
    ((run_checks c checks result response).1.checks
        = result.checks ++ checks.map (outcome_check c response))
    ∧ ((run_checks c checks result response).2
        = if (checks.filterMap (fun check => check.run response c)).isEmpty then Option.none
          else some (get_grouped_exception (checks.filterMap (fun check => check.run response c))))
    ∧ ((run_checks c checks result response).1.interactions = result.interactions) := by
  obtain ⟨h1, h2, h3⟩ := run_checks_loop_spec c response checks result []
  rw [List.nil_append] at h2
  simp only [run_checks]
  rw [h2]
  by_cases he : (checks.filterMap (fun check => check.run response c)).isEmpty
  · rw [if_pos he, if_pos he]
    exact ⟨by simp [TestResult.add_status_code, TestResult.add_response_error_result,
        TestResult.add_response_elapsed_time, h1], rfl,
      by simp [TestResult.add_status_code, TestResult.add_response_error_result,
        TestResult.add_response_elapsed_time, h3]⟩
  · rw [if_neg he, if_neg he]
    exact ⟨by simp [TestResult.add_status_code, TestResult.add_response_error_result,
        TestResult.add_response_elapsed_time, h1], rfl,
      by simp [TestResult.add_status_code, TestResult.add_response_error_result,
        TestResult.add_response_elapsed_time, h3]⟩

/-- C7: the check engine runs every check regardless of earlier assertion
failures — one `Check` is recorded per check, failure status for checks that
raised an assertion failure and success status for checks that passed, in
order; after all checks have run, exactly one grouped failure condition is
raised iff at least one check failed; and `run_test` classifies that grouped
condition as test status failure (not error). -/
theorem C7_run_checks_no_short_circuit (c : Case) (checks : List CheckFunction)
    (result : TestResult) (response : HttpResponse) :
    ((run_checks c checks result response).1.checks
        = result.checks ++ checks.map (outcome_check c response))
    ∧ ((run_checks c checks result response).2.isSome
        ↔ ∃ check ∈ checks, (check.run response c).isSome)
    ∧ (∀ k, (run_checks c checks result response).2 = some k →
        run_test_status (Except.error k) = some Status.failure) := by
  obtain ⟨h1, h2, h3⟩ := run_checks_spec c checks result response
  refine ⟨h1, ?_, ?_⟩
  · rw [h2]
    by_cases he : (checks.filterMap (fun check => check.run response c)).isEmpty
    · rw [if_pos he]
      simp only [Option.isSome_none, Bool.false_eq_true, false_iff]
      rintro ⟨check, hmem, hsome⟩
      rw [List.isEmpty_iff, List.filterMap_eq_nil_iff] at he
      rw [he check hmem] at hsome
      simp at hsome
    · rw [if_neg he]
      simp only [Option.isSome_some, true_iff]
      rw [List.isEmpty_iff] at he
      obtain ⟨msg, hmsg⟩ := List.exists_mem_of_ne_nil _ he
      obtain ⟨check, hmem, hrun⟩ := List.mem_filterMap.mp hmsg
      exact ⟨check, hmem, by simp [hrun]⟩
  · intro k hk
    rw [h2] at hk
    by_cases he : (checks.filterMap (fun check => check.run response c)).isEmpty
    · rw [if_pos he] at hk
      exact absurd hk (by simp)
    · rw [if_neg he] at hk
      have : k = get_grouped_exception (checks.filterMap (fun check => check.run response c)) := by
        injection hk.symm
      rw [this]
      rfl

/-- A check that always passes. -/
def c7_check_pass : CheckFunction := { name := "status_code_conformance", run := fun _ _ => Option.none }

/-- A check that always raises an assertion failure. -/
def c7_check_fail : CheckFunction := { name := "content_type_conformance", run := fun _ _ => some "mismatch" }

/-- C7 witness: with one passing and one failing check both outcomes are
recorded, the grouped condition is raised, and it classifies as failure. -/
theorem C7_run_checks_no_short_circuit_witness :
    ((run_checks c5_case [c7_check_pass, c7_check_fail] { endpoint := c5_case.endpoint }
        c5_raw_response).1.checks
      = ({ endpoint := c5_case.endpoint } : TestResult).checks
          ++ [c7_check_pass, c7_check_fail].map (outcome_check c5_case c5_raw_response))
    ∧ ((run_checks c5_case [c7_check_pass, c7_check_fail] { endpoint := c5_case.endpoint }
          c5_raw_response).2.isSome
        ↔ ∃ check ∈ [c7_check_pass, c7_check_fail],
            (check.run c5_raw_response c5_case).isSome)
    ∧ (∀ k, (run_checks c5_case [c7_check_pass, c7_check_fail] { endpoint := c5_case.endpoint }
          c5_raw_response).2 = some k →
        run_test_status (Except.error k) = some Status.failure) :=
  C7_run_checks_no_short_circuit c5_case [c7_check_pass, c7_check_fail]
    { endpoint := c5_case.endpoint } c5_raw_response

/-- C9 (amended): `network_test` performs the transport call but records NO
`Interaction` snapshot: on every execution path (dependency-resolution
failure, storing failure, check failures or success) the result's
interactions list is returned unchanged.  The `store_requests_response`
method, which appends exactly one snapshot pairing the request view of the
case with the response, exists on `TestResult` but is never invoked by
`network_test`. -/
theorem C9_network_test_records_no_interaction (c : Case) (checks : List CheckFunction)
    (result : TestResult) (session_headers : JsonObj) (request_timeout : Option Nat)
    (timeStr : String) (execute_in_order : Option DepMap) (store_response : DependencyStore)
    (transport : Case → HttpResponse) :
    ((network_test c checks result session_headers request_timeout timeStr execute_in_order
        store_response transport).result.interactions = result.interactions)
    ∧ (∀ (r : TestResult) (c' : Case) (resp : HttpResponse),
        (r.store_requests_response c' resp).interactions
          = r.interactions ++ [Interaction.from_requests c' resp]) := by
  constructor
  · simp only [network_test]
    cases hch : check_if_change_required (update_case_header c session_headers).1 timeStr
        execute_in_order store_response with
    | error e => rfl
    | ok c2 =>
        dsimp only
        cases hst : check_if_storing_required c2 (transport c2) execute_in_order store_response with
        | mk store1 exc1 =>
            cases exc1 with
            | none => exact (run_checks_spec c2 checks result (transport c2)).2.2
            | some e => rfl
  · intro r c' resp
    rfl

/-- The endpoint and transport oracle of the concrete C9 run. -/
def c9_case : Case := { endpoint := { path := "/foo", method := "GET" } }

/-- The concrete response returned by the C9 transport oracle. -/
def c9_response : HttpResponse :=
  { status_code := 200, text := "{}", json := some [], url := "http://x", elapsed_seconds := "0.1" }

/-- C9 counterexample: a concrete `network_test` run in which the transport
call happened and was processed (the status code 200 was recorded on the
result) yet the interactions list is empty — not the exactly-one snapshot
the claim requires. -/
theorem C9_no_interaction_on_concrete_run :
    ((network_test c9_case [] { endpoint := c9_case.endpoint } [] Option.none "1700.0"
        Option.none { entries := [] } (fun _ => c9_response)).result.status_codes = [200])
    ∧ ((network_test c9_case [] { endpoint := c9_case.endpoint } [] Option.none "1700.0"
        Option.none { entries := [] } (fun _ => c9_response)).result.interactions = []) :=
  ⟨rfl, rfl⟩

end Schemathesis
